import Mathlib

/-
Verification of the proxy-config-updater repository (src/serve.py): a
single-endpoint HTTP server that answers every GET request with a fixed
base64 text payload. The definitions below shallowly embed serve.py
together with the pieces of the Python runtime it relies on
(BaseHTTPRequestHandler's method dispatch, socketserver's serve loop, and
the interpreter's exit behaviour on an uncaught exception).
-/

namespace ProxyServe

/-- serve.py line 6: `PORT = 8888`. -/
def PORT : Nat := 8888

/-- serve.py line 7: the hardcoded payload constant `BASE64_CONTENT`,
a Python string literal. It is a top-level constant: nothing in the
program assigns to it or rebuilds it, so in this embedding it is a fixed
Lean constant. -/
def BASE64_CONTENT : String := "cG9ydDogODg4OApwcm94aWVzOgogIC0gbmFtZTogdGVzdAogICAgdHlwZTogc29ja3M1CiAgICBzZXJ2ZXI6IGV4YW1wbGUuY29tCiAgICBwb3J0OiAxMDgw"

/-- UTF-8 bytes of one character, as Python `str.encode()` produces. -/
def utf8Char (c : Char) : List Nat :=
  let n := c.toNat
  if n < 128 then [n]
  else if n < 2048 then [192 + n / 64, 128 + n % 64]
  else if n < 65536 then [224 + n / 4096, 128 + n / 64 % 64, 128 + n % 64]
  else [240 + n / 262144, 128 + n / 4096 % 64, 128 + n / 64 % 64, 128 + n % 64]

/-- Python `str.encode()`: the UTF-8 byte sequence of a string. -/
def strEncode (s : String) : List Nat := s.data.flatMap utf8Char

/-- An HTTP request as seen by the handler: method (Python
`self.command`), path, headers, body. serve.py never inspects anything
but the method (through the runtime's dispatch). -/
structure Request where
  method : String
  path : String
  headers : List (String × String)
  body : List Nat
deriving DecidableEq, Repr

/-- An HTTP response: status code, headers in the order sent, body bytes. -/
structure Response where
  status : Nat
  headers : List (String × String)
  body : List Nat
deriving DecidableEq, Repr

/-- The outgoing-response state a BaseHTTPRequestHandler accumulates
while a do_* method runs: status set by send_response, headers added by
send_header, the end_headers marker, and bytes written to wfile. -/
structure ResponseBuilder where
  status : Option Nat
  headers : List (String × String)
  headersEnded : Bool
  body : List Nat
deriving DecidableEq, Repr

/-- The builder state at the start of a request. -/
def ResponseBuilder.empty : ResponseBuilder :=
  { status := none, headers := [], headersEnded := false, body := [] }

/-- `self.send_response(code)`: records the status code. -/
def send_response (code : Nat) (st : ResponseBuilder) : ResponseBuilder :=
  { st with status := some code }

/-- `self.send_header(k, v)`: appends one header. -/
def send_header (k v : String) (st : ResponseBuilder) : ResponseBuilder :=
  { st with headers := st.headers ++ [(k, v)] }

/-- `self.end_headers()`: closes the header section. -/
def end_headers (st : ResponseBuilder) : ResponseBuilder :=
  { st with headersEnded := true }

/-- `self.wfile.write(bytes)`: appends bytes to the response body. -/
def wfile_write (bs : List Nat) (st : ResponseBuilder) : ResponseBuilder :=
  { st with body := st.body ++ bs }

/-- The response a finished builder denotes. -/
def buildOutput (st : ResponseBuilder) : Response :=
  { status := st.status.getD 0, headers := st.headers, body := st.body }

/-- serve.py lines 10-14, `Handler.do_GET`: send_response(200);
send_header of Content-Type text/plain; end_headers();
wfile.write(BASE64_CONTENT.encode()). The request is ignored. -/
def Handler.do_GET (req : Request) : Response :=
  let st := ResponseBuilder.empty
  let st := send_response 200 st
  let st := send_header "Content-Type" "text/plain" st
  let st := end_headers st
  let st := wfile_write (strEncode BASE64_CONTENT) st
  buildOutput st

/-- serve.py lines 16-18, `Handler.log_message`: the body is `pass`.
The result is the list of lines the call writes to the error stream
(the base class implementation would write one line per request);
this override writes none. -/
def Handler.log_message (fmt : String) (args : List String) : List String :=
  []

/-- The do_* methods the Handler class defines (serve.py lines 9-18):
only do_GET. BaseHTTPRequestHandler itself defines no do_* methods. -/
def handlerMethods : List String := ["GET"]

/-- `send_error(501)` of the runtime: a non-2xx error response whose
body is the stock error page for the given message; abstracted here to
the message bytes, since the program only relies on the status and on
the body not being the payload. -/
def send_error (code : Nat) (message : String) : Response :=
  { status := code
  , headers := [("Content-Type", "text/html;charset=utf-8"), ("Connection", "close")]
  , body := strEncode message }

/-- BaseHTTPRequestHandler.handle_one_request dispatch, as serve.py
relies on it: look up "do_" ++ command on the handler instance; if the
method is absent answer send_error 501 (Unsupported method), otherwise
call it. For this Handler the lookup succeeds exactly for GET. -/
def handle_one_request (req : Request) : Response :=
  if req.method ∈ handlerMethods then Handler.do_GET req
  else send_error 501 "Unsupported method"

/-- One inbound connection as the accept loop sees it: either a
connection delivering a request whose response is written successfully,
or a connection whose read or write fails mid-exchange. -/
inductive ConnEvent where
  | request (req : Request)
  | broken
deriving DecidableEq, Repr

/-- What became of one connection: a response fully served, or the
connection abandoned after an error. -/
inductive ConnOutcome where
  | served (resp : Response)
  | abandoned
deriving DecidableEq, Repr

/-- socketserver's per-connection processing: a request is answered via
the handler dispatch; an erroring connection is caught by handle_error
and abandoned, without raising out of the loop. -/
def handleConn : ConnEvent → ConnOutcome
  | ConnEvent.request req => ConnOutcome.served (handle_one_request req)
  | ConnEvent.broken => ConnOutcome.abandoned

/-- `httpd.serve_forever()` over a (prefix of the) connection stream:
each connection is handled in order, independently; an error on one
connection never stops the loop. -/
def serve_forever (conns : List ConnEvent) : List ConnOutcome :=
  conns.map handleConn

/-- Whether `socketserver.TCPServer(("", PORT), Handler)` managed to
bind and listen on the port, or raised (e.g. address already in use). -/
inductive BindResult where
  | ok
  | err (msg : String)
deriving DecidableEq, Repr

/-- An observation of one process run: the diagnostic lines written to
standard error at startup, the per-connection outcomes, and the exit
code (none while serve_forever is still looping). -/
structure ProcessRun where
  stderrStartup : List String
  outcomes : List ConnOutcome
  exitCode : Option Nat
deriving DecidableEq, Repr

/-- serve.py lines 20-23, the `__main__` block. The TCPServer
constructor binds inside the `with` header, before anything is printed;
if it raises, the exception is uncaught, nothing below runs, and the
interpreter exits with status 1. On success the single line
`Serving on port {PORT}` goes to sys.stderr and serve_forever runs. -/
def serverMain (bind : BindResult) (conns : List ConnEvent) : ProcessRun :=
  match bind with
  | BindResult.err _ =>
      { stderrStartup := [], outcomes := [], exitCode := some 1 }
  | BindResult.ok =>
      { stderrStartup := ["Serving on port " ++ toString PORT]
      , outcomes := serve_forever conns
      , exitCode := none }

/-- Base64 value of one alphabet character (A-Z, a-z, 0-9, +, /). -/
def base64Val (c : Char) : Option Nat :=
  let n := c.toNat
  if 65 ≤ n ∧ n ≤ 90 then some (n - 65)
  else if 97 ≤ n ∧ n ≤ 122 then some (n - 71)
  else if 48 ≤ n ∧ n ≤ 57 then some (n + 4)
  else if c = '+' then some 62
  else if c = '/' then some 63
  else none

/-- Reassemble bytes from 6-bit base64 values, four values to three
bytes; trailing groups of two or three values yield the one or two
bytes they determine. -/
def base64Bytes : List Nat → List Nat
  | a :: b :: c :: d :: rest =>
      let n := a * 262144 + b * 4096 + c * 64 + d
      n / 65536 :: n / 256 % 256 :: n % 256 :: base64Bytes rest
  | [a, b, c] =>
      let n := a * 4096 + b * 64 + c
      [n / 1024, n / 4 % 256]
  | [a, b] =>
      let n := a * 64 + b
      [n / 16]
  | _ => []

/-- Base64 decoding of a padding-free string: none when a character is
outside the alphabet. -/
def base64Decode (s : String) : Option (List Nat) :=
  (s.data.mapM base64Val).map base64Bytes

/-- The YAML document the payload constant encodes: a port 8888 entry
and one proxy named test, of type socks5, server example.com, port
1080. -/
def decodedPayload : String :=
  "port: 8888\nproxies:\n  - name: test\n    type: socks5\n    server: example.com\n    port: 1080"

/-- Concrete request: GET of the root path. -/
def getRoot : Request := { method := "GET", path := "/", headers := [], body := [] }

/-- Concrete request: GET of an arbitrary other path. -/
def getOther : Request := { method := "GET", path := "/anything/else", headers := [], body := [] }

/-- Concrete request: POST of the root path. -/
def postRoot : Request := { method := "POST", path := "/", headers := [], body := [] }

lemma do_GET_eq (req : Request) :
    Handler.do_GET req
      = { status := 200
        , headers := [("Content-Type", "text/plain")]
        , body := strEncode BASE64_CONTENT } := rfl

lemma dispatch_get (req : Request) (h : req.method = "GET") :
    handle_one_request req = Handler.do_GET req := by
  simp [handle_one_request, handlerMethods, h]

lemma dispatch_other (req : Request) (h : req.method ≠ "GET") :
    handle_one_request req = send_error 501 "Unsupported method" := by
  simp [handle_one_request, handlerMethods, h]

/-- C1: for every GET request, regardless of path, the handler responds
with status 200, a Content-Type: text/plain header, and a body equal
byte-for-byte to the literal payload constant, served as base64 text
without decoding. -/
theorem get_answered_with_payload (req : Request) (h : req.method = "GET") :
    (handle_one_request req).status = 200 ∧
    ("Content-Type", "text/plain") ∈ (handle_one_request req).headers ∧
    (handle_one_request req).body = strEncode BASE64_CONTENT := by
  rw [dispatch_get req h, do_GET_eq]
  exact ⟨rfl, by simp, rfl⟩

/-- Witness for C1 at the concrete request GET /. -/
theorem get_answered_with_payload_witness :
    (handle_one_request getRoot).status = 200 ∧
    ("Content-Type", "text/plain") ∈ (handle_one_request getRoot).headers ∧
    (handle_one_request getRoot).body = strEncode BASE64_CONTENT :=
  get_answered_with_payload getRoot rfl

/-- C2 counterexample: the response does depend on the method. POST of
the root path is answered 501, not the 200 payload response that GET of
the same path receives. -/
theorem method_independence_counterexample :
    (handle_one_request postRoot).status = 501 ∧
    (handle_one_request getRoot).status = 200 ∧
    handle_one_request postRoot ≠ handle_one_request getRoot := by
  refine ⟨rfl, rfl, ?_⟩
  decide

/-- C2 amended: the response depends on the method. A GET request gets
the 200 payload response; a request with any other method gets a 501
response whose body is not the payload, because Handler defines only
do_GET. -/
theorem method_dependent_response (req : Request) :
    (req.method = "GET" →
      (handle_one_request req).status = 200 ∧
      (handle_one_request req).body = strEncode BASE64_CONTENT) ∧
    (req.method ≠ "GET" →
      (handle_one_request req).status = 501 ∧
      (handle_one_request req).body ≠ strEncode BASE64_CONTENT) := by
  constructor
  · intro h
    rw [dispatch_get req h, do_GET_eq]
    exact ⟨rfl, rfl⟩
  · intro h
    rw [dispatch_other req h]
    exact ⟨rfl, by decide⟩

/-- Witness for the amended C2 at the concrete requests GET / and
POST /. -/
theorem method_dependent_response_witness :
    ((handle_one_request getRoot).status = 200 ∧
      (handle_one_request getRoot).body = strEncode BASE64_CONTENT) ∧
    ((handle_one_request postRoot).status = 501 ∧
      (handle_one_request postRoot).body ≠ strEncode BASE64_CONTENT) :=
  ⟨(method_dependent_response getRoot).1 rfl,
   (method_dependent_response postRoot).2 (by decide)⟩

/-- C3: a request whose method is not GET is not answered with the 200
payload response: since Handler defines only do_GET, the base handler
dispatch answers every non-GET method with a 501 Unsupported method
error. -/
theorem non_get_gets_501 (req : Request) (h : req.method ≠ "GET") :
    (handle_one_request req).status = 501 ∧
    handle_one_request req ≠ Handler.do_GET req := by
  rw [dispatch_other req h, do_GET_eq]
  exact ⟨rfl, by decide⟩

/-- Witness for C3 at the concrete request POST /. -/
theorem non_get_gets_501_witness :
    (handle_one_request postRoot).status = 501 ∧
    handle_one_request postRoot ≠ Handler.do_GET postRoot :=
  non_get_gets_501 postRoot (by decide)

/-- C4: over any sequence of GET requests, to the root or to arbitrary
paths, the response bodies are all byte-identical and each equals the
payload constant: the handler is deterministic and ignores request
count and path. -/
theorem get_bodies_identical (reqs : List Request)
    (h : ∀ r ∈ reqs, r.method = "GET") :
    reqs.map (fun r => (handle_one_request r).body)
      = List.replicate reqs.length (strEncode BASE64_CONTENT) := by
  induction reqs with
  | nil => rfl
  | cons r rs ih =>
      rw [List.map_cons, List.length_cons, List.replicate_succ,
        dispatch_get r (h r (List.mem_cons_self r rs)), do_GET_eq,
        ih (fun x hx => h x (List.mem_cons_of_mem r hx))]

/-- Witness for C4 on two GET requests with different paths. -/
theorem get_bodies_identical_witness :
    [getRoot, getOther].map (fun r => (handle_one_request r).body)
      = List.replicate 2 (strEncode BASE64_CONTENT) :=
  get_bodies_identical [getRoot, getOther] (by decide)

/-- C5: when the bind fails, the process exits with status 1 (non-zero),
makes no retry, never enters the serving loop, and never prints the
startup diagnostic line. -/
theorem bind_failure_fatal (msg : String) (conns : List ConnEvent) :
    (serverMain (BindResult.err msg) conns).exitCode = some 1 ∧
    (serverMain (BindResult.err msg) conns).exitCode ≠ some 0 ∧
    (serverMain (BindResult.err msg) conns).stderrStartup = [] ∧
    (serverMain (BindResult.err msg) conns).outcomes = [] := by
  refine ⟨rfl, ?_, rfl, rfl⟩
  simp [serverMain]

/-- C6: the log_message override writes nothing for any format string
and arguments, so besides response bytes the process output is the
single startup line. -/
theorem logging_suppressed :
    (∀ fmt args, Handler.log_message fmt args = []) ∧
    (∀ conns, (serverMain BindResult.ok conns).stderrStartup
      = ["Serving on port 8888"]) := by
  refine ⟨fun fmt args => rfl, fun conns => ?_⟩
  simp only [serverMain, PORT]
  decide

/-- C7: after a successful bind the process writes exactly one
diagnostic line to standard error, with the exact text
Serving on port 8888. -/
theorem startup_diagnostic_line (conns : List ConnEvent) :
    (serverMain BindResult.ok conns).stderrStartup = ["Serving on port 8888"] ∧
    (serverMain BindResult.ok conns).stderrStartup.length = 1 := by
  constructor
  · simp only [serverMain, PORT]
    decide
  · rfl

/-- C8: the payload is a fixed constant: every successfully served 200
response over the whole lifetime of a run carries exactly the payload
bytes; no operation of the program produces a 200 response with any
other body. -/
theorem payload_never_changes (conns : List ConnEvent) (o : ConnOutcome)
    (resp : Response) (ho : o ∈ serve_forever conns)
    (he : o = ConnOutcome.served resp) (h200 : resp.status = 200) :
    resp.body = strEncode BASE64_CONTENT := by
  subst he
  rcases List.mem_map.mp ho with ⟨c, _, hc⟩
  cases c with
  | broken => simp [handleConn] at hc
  | request req =>
      have hr : handle_one_request req = resp := by
        simpa [handleConn] using hc
      by_cases hm : req.method = "GET"
      · rw [← hr, dispatch_get req hm, do_GET_eq]
      · rw [← hr, dispatch_other req hm] at h200
        exact absurd h200 (by decide)

/-- Witness for C8 on a run serving one GET request. -/
theorem payload_never_changes_witness :
    (handle_one_request getRoot).body = strEncode BASE64_CONTENT :=
  payload_never_changes [ConnEvent.request getRoot]
    (ConnOutcome.served (handle_one_request getRoot)) (handle_one_request getRoot)
    (by simp [serve_forever, handleConn]) rfl rfl

set_option maxRecDepth 10000 in
/-- C9: base64-decoding the hardcoded payload constant yields the small
YAML document with the port 8888 entry and the proxy named test of type
socks5, server example.com, port 1080. -/
theorem payload_decodes_to_proxy_yaml :
    base64Decode BASE64_CONTENT = some (strEncode decodedPayload) := by
  decide

/-- C10: a connection that errors mid-exchange is abandoned alone: the
connections before and after it are handled exactly as they would be
without it, and the server stays in its serving loop (it does not
terminate). -/
theorem connection_failure_isolated (pre post : List ConnEvent) :
    serve_forever (pre ++ ConnEvent.broken :: post)
      = serve_forever pre ++ ConnOutcome.abandoned :: serve_forever post ∧
    (serverMain BindResult.ok (pre ++ ConnEvent.broken :: post)).exitCode
      = none := by
  refine ⟨?_, rfl⟩
  simp [serve_forever, handleConn]

end ProxyServe
